import Mathlib

/-
Verification of the core telemetry-to-decision pipeline of the OMEN battery
monitor (src/omen_battery/main.py): the sysfs readers `sysread`/`sysint`, the
`BattData` snapshot constructor, the persisted-state store `load_state` /
`save_state`, the charge-limit notification policy inside
`BatteryPanel._refresh` (lines 486-510), and the user toggle
`BatteryPanel._toggle_topup` (lines 446-452).

Machine reals (Python floats) are modelled by exact rationals; the only float
operations the embedded fragment performs are division by 10^6 of integers,
subtraction, division, comparison with 0.1, and `round(x, 1)`, whose signs,
zero tests and order comparisons agree with the rational model on all inputs
the program produces.  The outcome of each fallible I/O action (file read,
JSON parse, mkdir, write) is passed in explicitly, so that the embedded
functions are pure and total where the source is, and return `Except` where
the source can raise.
-/

/-- Value of a list of decimal digit characters, most significant first, as
Python `int` computes it for a digit string. -/
def digitsVal (cs : List Char) : Nat :=
  cs.foldl (fun a c => a * 10 + (c.toNat - 48)) 0

/-- Models `sysint` (main.py lines 47-49) applied to the result of `sysread`
(lines 43-45): the argument is `none` when the file was absent or unreadable
(`sysread` returned `None`), and `some s` when `sysread` returned the stripped
file text `s`.  Python evaluates `v and v.lstrip('-').isdigit()`; when that
guard passes the content is `'-'^k` followed by a nonempty digit string, and
`int(v)` then succeeds exactly when `k ≤ 1` — for `k ≥ 2` (e.g. `"--5"`)
Python raises `ValueError`, modelled by `Except.error ()`.  ASCII digits are
modelled (Python `str.isdigit` also accepts some non-ASCII digit characters).
-/
def sysintChars (cs : List Char) : Except Unit Int :=
  let stripped := cs.dropWhile (fun c => c = '-')
  if cs ≠ [] ∧ stripped ≠ [] ∧ stripped.all Char.isDigit = true then
    if cs.length = stripped.length then
      Except.ok ((digitsVal stripped : Nat) : Int)
    else if cs.length = stripped.length + 1 then
      Except.ok (-((digitsVal stripped : Nat) : Int))
    else
      Except.error ()
  else
    Except.ok 0

/-- `sysint` on the outcome of `sysread`: `0` on an unreadable file, else
parse per `sysintChars`. -/
def sysint (v : Option String) : Except Unit Int :=
  match v with
  | none => Except.ok 0
  | some s => sysintChars s.data

/-- Models `sysread(BAT / "status") or "Unknown"` (main.py line 55): Python's
`or` falls through to `"Unknown"` when `sysread` returned `None` or the empty
string (both falsy). -/
def statusOr (v : Option String) : String :=
  match v with
  | none => "Unknown"
  | some s => if s.isEmpty then "Unknown" else s

/-- Models Python `round(q, 1)` as used for `bios_cap_pct` (main.py line 64):
round to one decimal place.  (Python rounds exact ties on the underlying
binary float to even; the model rounds exact rational ties up — the two agree
except on exact ties, which the quotients involved do not hit exactly in
binary floating point.) -/
def roundTo1 (q : ℚ) : ℚ := ((round (q * 10) : ℤ) : ℚ) / 10

/-- Models the time-estimate computation of `BattData.__init__`
(main.py lines 66-76): `time_str` stays the unknown marker `"—"` (here
`none`) unless `power_w > 0.1` and the computed hour count `h` is strictly
positive; the source formats the positive `h` into `time_str`, modelled by
`some h`. -/
def timeEstimateHours (status : String) (energy_now energy_full power_w : ℚ) :
    Option ℚ :=
  if (1 / 10 : ℚ) < power_w then
    let h : ℚ :=
      if status = "Discharging" then energy_now / power_w
      else if status = "Charging" ∨ status = "Not charging" then
        max 0 ((energy_full - energy_now) / power_w)
      else 0
    if 0 < h then some h else none
  else none

/-- The `sysread` outcomes for the nine sysfs attributes `BattData.__init__`
reads (main.py lines 54-62): `none` = file absent/unreadable, `some s` =
stripped file text. -/
structure RawFiles where
  capacity_file : Option String
  status_file : Option String
  energy_now_file : Option String
  energy_full_file : Option String
  energy_design_file : Option String
  power_file : Option String
  voltage_file : Option String
  cycle_file : Option String
  ac_file : Option String
  deriving DecidableEq

/-- The battery snapshot `BattData` (main.py lines 52-76), with the raw
microwatt-hour counters already divided by 10^6 as in the source, the derived
`bios_cap_pct`, and the time estimate in hours (`none` = the source keeps
`time_str = "—"`). -/
structure BattData where
  capacity : Int
  status : String
  energy_now : ℚ
  energy_full : ℚ
  energy_design : ℚ
  power_w : ℚ
  voltage_v : ℚ
  cycle_count : Int
  ac_online : Int
  bios_cap_pct : ℚ
  time_est : Option ℚ
  deriving DecidableEq

/-- Models `BattData.__init__` (main.py lines 52-76).  Each `sysint` call can
raise `ValueError` (see `sysintChars`), and `__init__` has no handler, so the
construction is fallible: any raising attribute aborts it.
`bios_cap_pct` is `round(energy_full / energy_design * 100, 1)` guarded by
Python truthiness `if self.energy_design` (i.e. `energy_design ≠ 0`, not
`> 0`). -/
def mkBattData (f : RawFiles) : Except Unit BattData := do
  let capacity ← sysint f.capacity_file
  let status := statusOr f.status_file
  let en ← sysint f.energy_now_file
  let ef ← sysint f.energy_full_file
  let ed ← sysint f.energy_design_file
  let pw ← sysint f.power_file
  let vv ← sysint f.voltage_file
  let cc ← sysint f.cycle_file
  let ac ← sysint f.ac_file
  let energy_now : ℚ := (en : ℚ) / 1000000
  let energy_full : ℚ := (ef : ℚ) / 1000000
  let energy_design : ℚ := (ed : ℚ) / 1000000
  let power_w : ℚ := (pw : ℚ) / 1000000
  let voltage_v : ℚ := (vv : ℚ) / 1000000
  pure
    { capacity := capacity
      status := status
      energy_now := energy_now
      energy_full := energy_full
      energy_design := energy_design
      power_w := power_w
      voltage_v := voltage_v
      cycle_count := cc
      ac_online := ac
      bios_cap_pct :=
        if energy_design ≠ 0 then roundTo1 (energy_full / energy_design * 100)
        else 0
      time_est := timeEstimateHours status energy_now energy_full power_w }

/-- A JSON value, the possible results of `json.loads` on the state file. -/
inductive JValue where
  | null : JValue
  | bool (b : Bool) : JValue
  | num (q : ℚ) : JValue
  | str (s : String) : JValue
  | arr (xs : List JValue) : JValue
  | obj (kvs : List (String × JValue)) : JValue

/-- The default state document `{"limit": 80, "top_up_active": false,
"notified_at": -1}` returned by `load_state`'s except-branch
(main.py line 83). -/
def defaultStateDoc : JValue :=
  JValue.obj
    [("limit", JValue.num 80),
     ("top_up_active", JValue.bool false),
     ("notified_at", JValue.num (-1))]

/-- Models `load_state` (main.py lines 79-83).  The argument is the combined
outcome of `STATE_FILE.read_text()` and `json.loads`: `none` when the file is
absent, unreadable, or not parseable as JSON (any exception lands in the bare
`except`), and `some doc` when parsing succeeds.  The source performs no
structural validation on `doc`: it is returned as-is. -/
def load_state (store : Option JValue) : JValue :=
  match store with
  | some doc => doc
  | none => defaultStateDoc

/-- Models `save_state` (main.py lines 85-87): `STATE_FILE.parent.mkdir(...)`
followed by `STATE_FILE.write_text(...)`, each of which can raise; the
outcomes of the two I/O actions are passed in.  The source has no exception
handler and no logging, so the first failure propagates to the caller. -/
def save_state (mkdir_result : Except String Unit)
    (write_result : Except String Unit) : Except String Unit :=
  match mkdir_result with
  | Except.error e => Except.error e
  | Except.ok _ => write_result

/-- The persisted state as consumed by `_refresh`/`_toggle_topup`: the three
dict entries, after the `s.get(key, default)` defaulting the source applies
at every read (main.py lines 458-459, 487). -/
structure PersistedState where
  limit : Int
  top_up_active : Bool
  notified_at : Int
  deriving DecidableEq

/-- One `notify-send` invocation (main.py lines 90-97): its title, body,
urgency and icon.  `notify`'s defaults are `urgency="normal"`,
`icon="battery-caution"`. -/
structure Notification where
  title : String
  body : String
  urgency : String
  icon : String
  deriving DecidableEq

/-- The top-up completion notification (main.py lines 490-494). -/
def fullNotification : Notification :=
  { title := "🔋 Battery Full"
    body := "Reached 100% — safe to unplug now."
    urgency := "normal"
    icon := "battery-full" }

/-- The charge-limit-reached notification (main.py lines 499-503). -/
def limitNotification (limit capacity : Int) : Notification :=
  { title := "🔋 " ++ toString capacity ++ "% — Unplug Now"
    body := "Battery hit your " ++ toString limit ++
      "% limit. Unplug to protect battery life."
    urgency := "critical"
    icon := "battery-caution" }

/-- The notification emitted when the user switches top-up on
(main.py line 451); `notify`'s default urgency `"normal"` applies. -/
def topupNotification : Notification :=
  { title := "Top Up activated"
    body := "Will notify when battery reaches 100%"
    urgency := "normal"
    icon := "battery-full" }

/-- Models the charge-limit logic of `BatteryPanel._refresh`
(main.py lines 486-510) on a snapshot with the given `capacity` and
`ac_online` (an integer; Python truthiness makes the guard `ac_online ≠ 0`):
first the notification block (lines 488-505), then the unplug reset
(lines 508-510), which tests the `notified_at` value read at line 487, before
any mutation.  Returns the mutated state and the notifications sent this
tick. -/
def refresh_policy (capacity ac_online : Int) (s : PersistedState) :
    PersistedState × List Notification :=
  let limit := s.limit
  let topup := s.top_up_active
  let effective_limit : Int := if topup then 100 else limit
  let notified_at := s.notified_at
  let step1 : PersistedState × List Notification :=
    if ac_online ≠ 0 ∧ effective_limit ≤ capacity ∧ notified_at ≠ capacity then
      if topup then
        ({ s with top_up_active := false, notified_at := capacity },
         [fullNotification])
      else
        ({ s with notified_at := capacity }, [limitNotification limit capacity])
    else (s, [])
  if ac_online = 0 ∧ notified_at ≠ -1 then
    ({ step1.1 with notified_at := -1 }, step1.2)
  else step1

/-- Models `BatteryPanel._toggle_topup` (main.py lines 446-451): `checked` is
the new button state.  Lines 447-448 mutate the in-memory state first; line
449 then calls `save_state` (whose two I/O outcomes are passed through), and
only if that returns normally does line 450-451 send the toggle-on
notification — a raising save propagates out of the handler before any
notify.  The first component is the in-memory state (mutated in every case);
the second is the propagated exception or the notifications sent.  Line 452
then runs an ordinary refresh tick, modelled separately by `refresh_policy`
(see `toggle_topup_then_refresh`). -/
def toggle_topup (checked : Bool) (s : PersistedState)
    (mkdir_result write_result : Except String Unit) :
    PersistedState × Except String (List Notification) :=
  let s1 := { s with top_up_active := checked, notified_at := -1 }
  (s1,
   match save_state mkdir_result write_result with
   | Except.error e => Except.error e
   | Except.ok _ => Except.ok (if checked then [topupNotification] else []))

/-- The full `_toggle_topup` call including the trailing `self._refresh()`
(main.py line 452), which evaluates the policy on the current snapshot and is
reached only when the save returned normally.  (The refresh tick's own
`save_state` calls are outside this composition; `refresh_policy` models its
decision logic, whose notify and state mutations precede those saves.) -/
def toggle_topup_then_refresh (checked : Bool) (s : PersistedState)
    (mkdir_result write_result : Except String Unit)
    (capacity ac_online : Int) :
    PersistedState × Except String (List Notification) :=
  let r1 := toggle_topup checked s mkdir_result write_result
  match r1.2 with
  | Except.error e => (r1.1, Except.error e)
  | Except.ok n1 =>
    let r2 := refresh_policy capacity ac_online r1.1
    (r2.1, Except.ok (n1 ++ r2.2))

/-- On-AC characterization of `refresh_policy`: with `ac_online ≠ 0` the
unplug-reset block is dead and only the notification block runs. -/
theorem refresh_policy_on_ac (capacity ac : Int) (s : PersistedState)
    (hac : ac ≠ 0) :
    refresh_policy capacity ac s =
      if (if s.top_up_active then (100 : Int) else s.limit) ≤ capacity ∧
          s.notified_at ≠ capacity then
        if s.top_up_active then
          ({ s with top_up_active := false, notified_at := capacity },
           [fullNotification])
        else
          ({ s with notified_at := capacity },
           [limitNotification s.limit capacity])
      else (s, []) := by
  simp only [refresh_policy, hac, ne_eq, not_false_eq_true, true_and,
    false_and, if_false]

/-- Off-AC characterization of `refresh_policy`: with `ac_online = 0` the
notification block is dead and only the unplug reset runs. -/
theorem refresh_policy_off_ac (capacity : Int) (s : PersistedState) :
    refresh_policy capacity 0 s =
      if s.notified_at ≠ -1 then ({ s with notified_at := -1 }, [])
      else (s, []) := by
  simp only [refresh_policy, ne_eq, not_true_eq_false, false_and, if_false,
    true_and]

/-- C1: on AC power, whenever the capacity is at or above the effective limit
(100 under top-up, else the configured limit) and `notified_at` differs from
the current capacity, the refresh logic emits exactly one notification and
stores `notified_at = capacity`.  The comparison is `≥`, so with limit 80 and
top-up off it fires at exactly 80 and at every higher reading, in particular
at `c + 1` right after a notification recorded `notified_at = c`. -/
theorem claim_C1 (capacity ac : Int) (s : PersistedState) (hac : ac ≠ 0)
    (hcap : (if s.top_up_active then (100 : Int) else s.limit) ≤ capacity)
    (hna : s.notified_at ≠ capacity) :
    (refresh_policy capacity ac s).2.length = 1 ∧
    (refresh_policy capacity ac s).1.notified_at = capacity := by
  rw [refresh_policy_on_ac capacity ac s hac, if_pos ⟨hcap, hna⟩]
  by_cases htu : s.top_up_active <;> simp [htu]

/-- Witness for C1: limit 80, top-up off, capacity exactly 80 on AC with the
sentinel `notified_at = -1`. -/
theorem claim_C1_witness :
    (refresh_policy 80 1 ⟨80, false, -1⟩).2.length = 1 ∧
    (refresh_policy 80 1 ⟨80, false, -1⟩).1.notified_at = 80 :=
  claim_C1 80 1 ⟨80, false, -1⟩ (by decide) (by decide) (by decide)

/-- C2: with AC offline the refresh logic never notifies and, when
`notified_at` was set, resets it to the sentinel `-1`; more generally no
notification is emitted whenever the capacity is below the effective limit or
AC is offline. -/
theorem claim_C2 (capacity ac : Int) (s : PersistedState) :
    (ac = 0 →
      (refresh_policy capacity ac s).2 = [] ∧
      (s.notified_at ≠ -1 →
        (refresh_policy capacity ac s).1.notified_at = -1)) ∧
    ((capacity < (if s.top_up_active then (100 : Int) else s.limit) ∨
        ac = 0) →
      (refresh_policy capacity ac s).2 = []) := by
  constructor
  · intro hac
    subst hac
    rw [refresh_policy_off_ac capacity s]
    constructor
    · split_ifs <;> rfl
    · intro hna
      rw [if_pos hna]
  · intro h
    rcases h with hlt | hac
    · by_cases hac : ac = 0
      · subst hac
        rw [refresh_policy_off_ac capacity s]
        split_ifs <;> rfl
      · rw [refresh_policy_on_ac capacity ac s hac,
          if_neg (by exact fun hc => absurd hc.1 (not_le.mpr hlt))]
    · subst hac
      rw [refresh_policy_off_ac capacity s]
      split_ifs <;> rfl

/-- Witness for C2: capacity 60, AC offline, `notified_at = 80` — no
notification and the sentinel is restored. -/
theorem claim_C2_witness :
    (refresh_policy 60 0 ⟨80, false, 80⟩).2 = [] ∧
    (refresh_policy 60 0 ⟨80, false, 80⟩).1.notified_at = -1 :=
  ⟨((claim_C2 60 0 ⟨80, false, 80⟩).1 rfl).1,
   ((claim_C2 60 0 ⟨80, false, 80⟩).1 rfl).2 (by decide)⟩

/-- C3: dedup idempotence — on AC power, running the refresh logic again on
the same snapshot with the state it just produced emits no further
notification and returns that state unchanged (all of `limit`,
`top_up_active`, `notified_at` identical). -/
theorem claim_C3 (capacity ac : Int) (s : PersistedState) (hac : ac ≠ 0) :
    refresh_policy capacity ac (refresh_policy capacity ac s).1 =
      ((refresh_policy capacity ac s).1, []) := by
  rw [refresh_policy_on_ac capacity ac s hac]
  by_cases h : (if s.top_up_active then (100 : Int) else s.limit) ≤ capacity ∧
      s.notified_at ≠ capacity
  · rw [if_pos h]
    by_cases htu : s.top_up_active
    · rw [if_pos htu, refresh_policy_on_ac capacity ac _ hac]
      simp
    · rw [if_neg htu, refresh_policy_on_ac capacity ac _ hac]
      simp
  · rw [if_neg h, refresh_policy_on_ac capacity ac s hac, if_neg h]

/-- Witness for C3: after the notification at capacity 80 the repeated
evaluation is a no-op. -/
theorem claim_C3_witness :
    refresh_policy 80 1 (refresh_policy 80 1 ⟨80, false, -1⟩).1 =
      ((refresh_policy 80 1 ⟨80, false, -1⟩).1, []) :=
  claim_C3 80 1 ⟨80, false, -1⟩ (by decide)

/-- C4: top-up auto-clear — with top-up active, `notified_at ≠ 100`, and a
snapshot at 100% on AC, the refresh logic emits the informational
"battery full" notification (urgency `"normal"`, not the critical limit
notification) and the new state has `top_up_active = false` and
`notified_at = 100`. -/
theorem claim_C4 (ac : Int) (s : PersistedState) (hac : ac ≠ 0)
    (htu : s.top_up_active = true) (hna : s.notified_at ≠ 100) :
    refresh_policy 100 ac s =
      ({ s with top_up_active := false, notified_at := 100 },
       [fullNotification]) ∧
    fullNotification.urgency = "normal" ∧
    fullNotification ≠ limitNotification s.limit 100 := by
  refine ⟨?_, rfl, ?_⟩
  · rw [refresh_policy_on_ac 100 ac s hac, if_pos ⟨by simp [htu], hna⟩,
      if_pos htu]
  · intro hcontra
    have hurg : ("normal" : String) = "critical" :=
      congrArg Notification.urgency hcontra
    exact absurd hurg (by decide)

/-- Witness for C4: top-up active at limit 80, snapshot 100% on AC. -/
theorem claim_C4_witness :
    refresh_policy 100 1 ⟨80, true, -1⟩ =
      (⟨80, false, 100⟩, [fullNotification]) ∧
    fullNotification.urgency = "normal" ∧
    fullNotification ≠ limitNotification 80 100 :=
  claim_C4 1 ⟨80, true, -1⟩ (by decide) rfl (by decide)

/-- C5 counterexample: toggling top-up on while the state save fails (here a
raising mkdir) emits no "top-up activated" notification — the exception from
`save_state` (main.py line 449) propagates out of the handler before the
notify at lines 450-451 — refuting the claim's unconditional immediate
emission. -/
theorem claim_C5_counterexample :
    (toggle_topup true ⟨80, false, -1⟩
        (Except.error "mkdir: permission denied") (Except.ok ())).2 =
      Except.error "mkdir: permission denied" ∧
    (toggle_topup true ⟨80, false, -1⟩
        (Except.error "mkdir: permission denied") (Except.ok ())).2 ≠
      Except.ok [topupNotification] :=
  ⟨rfl, fun h => nomatch h⟩

/-- C5 (amended): toggling top-up on sets `top_up_active = true` and
`notified_at = -1` in memory and, provided the state save returns normally,
immediately emits the informational "top-up activated" notification; toggling
off sets `top_up_active = false` and `notified_at = -1` and emits nothing;
the configured limit is untouched in every case.  When the save raises, the
exception propagates before any notify: the in-memory flags are still set but
no notification is emitted. -/
theorem claim_C5 (s : PersistedState) (m w : Except String Unit) :
    (save_state m w = Except.ok () →
      toggle_topup true s m w =
        ({ s with top_up_active := true, notified_at := -1 },
         Except.ok [topupNotification]) ∧
      toggle_topup false s m w =
        ({ s with top_up_active := false, notified_at := -1 },
         Except.ok [])) ∧
    (∀ e : String, save_state m w = Except.error e →
      toggle_topup true s m w =
        ({ s with top_up_active := true, notified_at := -1 },
         Except.error e) ∧
      toggle_topup false s m w =
        ({ s with top_up_active := false, notified_at := -1 },
         Except.error e)) ∧
    topupNotification.urgency = "normal" ∧
    (toggle_topup true s m w).1.limit = s.limit ∧
    (toggle_topup false s m w).1.limit = s.limit := by
  refine ⟨?_, ?_, rfl, rfl, rfl⟩
  · intro hs
    constructor <;> simp [toggle_topup, hs]
  · intro e he
    constructor <;> simp [toggle_topup, he]

/-- Witness for C5: a successful save — the toggle mutates the flags, emits
the activation notification exactly when switched on, and keeps limit 80. -/
theorem claim_C5_witness :
    toggle_topup true ⟨80, false, -1⟩ (Except.ok ()) (Except.ok ()) =
      (⟨80, true, -1⟩, Except.ok [topupNotification]) ∧
    toggle_topup false ⟨80, false, -1⟩ (Except.ok ()) (Except.ok ()) =
      (⟨80, false, -1⟩, Except.ok []) :=
  (claim_C5 ⟨80, false, -1⟩ (Except.ok ()) (Except.ok ())).1 rfl

/-- A structurally invalid state document: valid JSON with `limit` outside
`[0, 100]`. -/
def outOfRangeDoc : JValue :=
  JValue.obj
    [("limit", JValue.num 200),
     ("top_up_active", JValue.bool false),
     ("notified_at", JValue.num (-1))]

/-- C6 counterexample: a parseable document whose `limit` is 200 (outside
`[0, 100]`) is returned as-is by `load_state`, not replaced by the defaults —
the source performs no structural validation. -/
theorem claim_C6_counterexample :
    load_state (some outOfRangeDoc) = outOfRangeDoc ∧
    outOfRangeDoc ≠ defaultStateDoc := by
  refine ⟨rfl, ?_⟩
  intro h
  simp only [outOfRangeDoc, defaultStateDoc, JValue.obj.injEq, List.cons.injEq,
    Prod.mk.injEq, JValue.num.injEq] at h
  exact absurd h.1.2 (by norm_num)

/-- C6 (amended): `load_state` never fails; it returns the defaults
`{limit: 80, top_up_active: false, notified_at: -1}` exactly when the backing
store is absent, unreadable, or not parseable as JSON (or happens to contain
the default document itself); any parseable document — missing keys, wrong
types, out-of-range limit included — is returned unvalidated. -/
theorem claim_C6 :
    load_state none = defaultStateDoc ∧
    (∀ doc : JValue, load_state (some doc) = doc) ∧
    (∀ store : Option JValue,
      load_state store = defaultStateDoc ↔
        store = none ∨ store = some defaultStateDoc) := by
  refine ⟨rfl, fun _ => rfl, fun store => ?_⟩
  cases store with
  | none => simp [load_state]
  | some doc =>
    constructor
    · intro h
      exact Or.inr (by rw [show doc = defaultStateDoc from h])
    · intro h
      rcases h with h | h
      · exact absurd h (by simp)
      · rw [Option.some.injEq] at h
        rw [h]
        rfl

/-- C7 counterexample: a directory-creation failure propagates out of
`save_state` — the source has no exception handler, so the claim that a
failed save is logged and never propagated fails on the code. -/
theorem claim_C7_counterexample :
    save_state (Except.error "mkdir: permission denied") (Except.ok ()) =
      Except.error "mkdir: permission denied" := rfl

/-- C7 (amended): `save_state` propagates any directory-creation or write
failure to its caller (no handler, no logging): it returns normally exactly
when both the mkdir and the write succeed, and a mkdir failure is returned
as-is. -/
theorem claim_C7 (m w : Except String Unit) :
    (save_state m w = Except.ok () ↔
      m = Except.ok () ∧ w = Except.ok ()) ∧
    (∀ e : String, save_state (Except.error e) w = Except.error e) := by
  constructor
  · cases m with
    | error e => simp [save_state]
    | ok u => cases u; cases w with
      | error e => simp [save_state]
      | ok u => cases u; simp [save_state]
  · intro e
    rfl

/-- Witness for C7: both actions succeeding yields a normal return, and a
concrete mkdir failure is propagated verbatim. -/
theorem claim_C7_witness :
    save_state (Except.error "EPERM") (Except.ok ()) =
      Except.error "EPERM" :=
  (claim_C7 (Except.error "EPERM") (Except.ok ())).2 "EPERM"

/-- True when the (stripped) file content is absent or does not begin with a
minus sign — the contents real sysfs attributes can have. -/
def firstNotDash (v : Option String) : Bool :=
  match v with
  | none => true
  | some s =>
    match s.data with
    | [] => true
    | c :: _ => !(c == '-')

/-- Helper: a successful `Except` bind splits into two successes. -/
theorem except_bind_ok {α β : Type} {x : Except Unit α}
    {g : α → Except Unit β} {b : β} (h : (x >>= g) = Except.ok b) :
    ∃ a, x = Except.ok a ∧ g a = Except.ok b := by
  cases x with
  | error e =>
    exact absurd h (by simp [Bind.bind, Except.bind])
  | ok a =>
    exact ⟨a, rfl, by simpa [Bind.bind, Except.bind] using h⟩

/-- Helper: when the character list does not start with `'-'`, `sysintChars`
succeeds with a non-negative value (the digit-guarded parse of a dash-free
string is either a plain digit value or the fallback `0`). -/
theorem sysintChars_nonneg (cs : List Char)
    (hfirst : ∀ c rest, cs = c :: rest → c ≠ '-')
    (n : Int) (he : sysintChars cs = Except.ok n) : 0 ≤ n := by
  cases cs with
  | nil =>
    simp [sysintChars] at he
    omega
  | cons c rest =>
    have hc : c ≠ '-' := hfirst c rest rfl
    have hdw : (c :: rest).dropWhile (fun x => x = '-') = c :: rest := by
      simp [List.dropWhile_cons, hc]
    simp only [sysintChars, hdw] at he
    split_ifs at he with h1
    · injection he with he'
      omega
    · injection he with he'
      omega

/-- Helper: `sysint` on dash-free (or unreadable) content succeeds with a
non-negative value. -/
theorem sysint_nonneg (v : Option String) (h : firstNotDash v = true)
    (n : Int) (he : sysint v = Except.ok n) : 0 ≤ n := by
  cases v with
  | none =>
    simp [sysint] at he
    omega
  | some s =>
    rw [sysint] at he
    refine sysintChars_nonneg s.data ?_ n he
    intro c rest hcr hc
    rw [firstNotDash] at h
    rw [hcr] at h
    subst hc
    simp at h

/-- Sysfs contents whose capacity attribute holds `"--5"`: the stripped text
passes the `lstrip('-').isdigit()` guard, but `int("--5")` raises. -/
def crashFiles : RawFiles :=
  { capacity_file := some "--5"
    status_file := some "Discharging"
    energy_now_file := some "40000000"
    energy_full_file := some "50000000"
    energy_design_file := some "50000000"
    power_file := some "5000000"
    voltage_file := some "12000000"
    cycle_file := some "7"
    ac_file := some "1" }

/-- C8: snapshot construction is not total — on the malformed capacity
content `"--5"` the guard in `sysint` passes but the integer parse raises, so
`BattData()` aborts instead of substituting zero. -/
theorem claim_C8 : mkBattData crashFiles = Except.error () := rfl

/-- Sysfs contents whose cycle-count attribute holds the negative literal
`"-5"`. -/
def negCycleFiles : RawFiles :=
  { capacity_file := some "50"
    status_file := some "Discharging"
    energy_now_file := some "40000000"
    energy_full_file := some "50000000"
    energy_design_file := some "50000000"
    power_file := some "5000000"
    voltage_file := some "12000000"
    cycle_file := some "-5"
    ac_file := some "1" }

/-- C9 counterexample: the sensor content `"-5"` parses to the negative cycle
count `-5` — `sysint` passes negative literals through unchanged, so the
non-negativity invariant fails for that content. -/
theorem claim_C9_counterexample :
    (mkBattData negCycleFiles).map BattData.cycle_count = Except.ok (-5) ∧
    ¬ (0 : Int) ≤ -5 :=
  ⟨rfl, by decide⟩

/-- C9 (amended): the snapshot's energy fields and cycle count are
non-negative whenever the corresponding attribute contents are unreadable or
do not begin with a minus sign (as real sysfs counters never do); the cycle
count is 0 when its attribute is unavailable.  A readable negative literal
such as `"-5"` is passed through unchanged. -/
theorem claim_C9 (f : RawFiles) (d : BattData)
    (h : mkBattData f = Except.ok d)
    (h1 : firstNotDash f.energy_now_file = true)
    (h2 : firstNotDash f.energy_full_file = true)
    (h3 : firstNotDash f.energy_design_file = true)
    (h4 : firstNotDash f.cycle_file = true) :
    0 ≤ d.energy_now ∧ 0 ≤ d.energy_full ∧ 0 ≤ d.energy_design ∧
    0 ≤ d.cycle_count ∧ (f.cycle_file = none → d.cycle_count = 0) := by
  simp only [mkBattData] at h
  obtain ⟨cap, hcap, h⟩ := except_bind_ok h
  obtain ⟨en, hen, h⟩ := except_bind_ok h
  obtain ⟨ef, hef, h⟩ := except_bind_ok h
  obtain ⟨ed, hed, h⟩ := except_bind_ok h
  obtain ⟨pw, hpw, h⟩ := except_bind_ok h
  obtain ⟨vv, hvv, h⟩ := except_bind_ok h
  obtain ⟨cc, hcc, h⟩ := except_bind_ok h
  obtain ⟨ac, hac, h⟩ := except_bind_ok h
  simp only [pure, Except.pure, Except.ok.injEq] at h
  subst h
  refine ⟨div_nonneg ?_ (by norm_num), div_nonneg ?_ (by norm_num),
    div_nonneg ?_ (by norm_num), ?_, ?_⟩
  · exact_mod_cast sysint_nonneg _ h1 en hen
  · exact_mod_cast sysint_nonneg _ h2 ef hef
  · exact_mod_cast sysint_nonneg _ h3 ed hed
  · exact sysint_nonneg _ h4 cc hcc
  · intro hnone
    rw [hnone] at hcc
    simp [sysint] at hcc
    show cc = 0
    omega

/-- The all-unreadable sensor directory. -/
def zeroFiles : RawFiles :=
  { capacity_file := none
    status_file := none
    energy_now_file := none
    energy_full_file := none
    energy_design_file := none
    power_file := none
    voltage_file := none
    cycle_file := none
    ac_file := none }

/-- The snapshot built from `zeroFiles`: all zero / Unknown. -/
def zeroData : BattData :=
  { capacity := 0
    status := "Unknown"
    energy_now := 0
    energy_full := 0
    energy_design := 0
    power_w := 0
    voltage_v := 0
    cycle_count := 0
    ac_online := 0
    bios_cap_pct := 0
    time_est := none }

/-- Helper: the all-unreadable directory yields the all-zero snapshot. -/
theorem mkBattData_zeroFiles : mkBattData zeroFiles = Except.ok zeroData := by
  have h0 : sysint none = Except.ok 0 := rfl
  simp only [mkBattData, zeroFiles, h0, bind, Except.bind, pure, Except.pure,
    statusOr]
  norm_num [zeroData, timeEstimateHours, roundTo1]

/-- Witness for C9: the all-unreadable directory satisfies every hypothesis
and yields non-negative (all zero) fields. -/
theorem claim_C9_witness :
    0 ≤ zeroData.energy_now ∧ 0 ≤ zeroData.energy_full ∧
    0 ≤ zeroData.energy_design ∧ 0 ≤ zeroData.cycle_count ∧
    (zeroFiles.cycle_file = none → zeroData.cycle_count = 0) :=
  claim_C9 zeroFiles zeroData mkBattData_zeroFiles rfl rfl rfl rfl

/-- C10 counterexample: with `power_w = 1 > 0.1`, status `Charging` and the
battery already full (`energy_full = energy_now = 10`), the spec's formula
gives the valid duration `max(0, 0) = 0` hours, but the code's additional
`h > 0` guard keeps the estimate unknown. -/
theorem claim_C10_counterexample :
    timeEstimateHours "Charging" 10 10 1 = none ∧
    (1 / 10 : ℚ) < 1 ∧ max (0 : ℚ) ((10 - 10) / 1) = 0 := by
  refine ⟨?_, by norm_num, by norm_num⟩
  simp only [timeEstimateHours]
  rw [if_pos (by norm_num : (1 / 10 : ℚ) < 1)]
  rw [if_neg (by decide : ¬ ("Charging" : String) = "Discharging")]
  rw [if_pos (Or.inl trivial :
    True ∨ ("Charging" : String) = "Not charging")]
  rw [if_neg (by norm_num : ¬ (0 : ℚ) < max 0 ((10 - 10) / 1))]

/-- C10 (amended): the time estimate is valid only when `power_w > 0.1` AND
the computed hour value is strictly positive; in that case it equals
`energy_now / power_w` when discharging and `max 0 ((energy_full −
energy_now) / power_w)` when charging or not charging; when the computed
value is not positive (e.g. already full while charging), when
`power_w ≤ 0.1`, or when the status is anything else (e.g. Unknown), the
estimate is unknown. -/
theorem claim_C10 (status : String) (en ef pw : ℚ) :
    (¬ (1 / 10 : ℚ) < pw → timeEstimateHours status en ef pw = none) ∧
    ((1 / 10 : ℚ) < pw → status = "Discharging" →
      (0 < en / pw → timeEstimateHours status en ef pw = some (en / pw)) ∧
      (¬ 0 < en / pw → timeEstimateHours status en ef pw = none)) ∧
    ((1 / 10 : ℚ) < pw →
        (status = "Charging" ∨ status = "Not charging") →
      (0 < max 0 ((ef - en) / pw) →
        timeEstimateHours status en ef pw =
          some (max 0 ((ef - en) / pw))) ∧
      (¬ 0 < max 0 ((ef - en) / pw) →
        timeEstimateHours status en ef pw = none)) ∧
    ((1 / 10 : ℚ) < pw → status ≠ "Discharging" → status ≠ "Charging" →
      status ≠ "Not charging" → timeEstimateHours status en ef pw = none) := by
  refine ⟨?_, ?_, ?_, ?_⟩
  · intro hpw
    simp only [timeEstimateHours]
    rw [if_neg hpw]
  · intro hpw hst
    subst hst
    constructor <;> intro hh <;> simp only [timeEstimateHours] <;>
      rw [if_pos hpw, if_pos (trivial : True)]
    · rw [if_pos hh]
    · rw [if_neg hh]
  · intro hpw hst
    rcases hst with hst | hst <;> subst hst
    · constructor <;> intro hh <;> simp only [timeEstimateHours] <;>
        rw [if_pos hpw,
          if_neg (by decide : ¬ ("Charging" : String) = "Discharging"),
          if_pos (Or.inl trivial :
            True ∨ ("Charging" : String) = "Not charging")]
      · rw [if_pos hh]
      · rw [if_neg hh]
    · constructor <;> intro hh <;> simp only [timeEstimateHours] <;>
        rw [if_pos hpw,
          if_neg (by decide : ¬ ("Not charging" : String) = "Discharging"),
          if_pos (Or.inr trivial :
            ("Not charging" : String) = "Charging" ∨ True)]
      · rw [if_pos hh]
      · rw [if_neg hh]
  · intro hpw hnd hnc hnn
    simp only [timeEstimateHours]
    rw [if_pos hpw, if_neg hnd, if_neg (not_or.mpr ⟨hnc, hnn⟩),
      if_neg (lt_irrefl (0 : ℚ))]

/-- Witness for C10: discharging at 5 W with 40 Wh in the pack gives the
valid estimate `40 / 5` hours. -/
theorem claim_C10_witness :
    timeEstimateHours "Discharging" 40 50 5 = some (40 / 5) :=
  ((claim_C10 "Discharging" 40 50 5).2.1 (by norm_num) rfl).1 (by norm_num)
